import Mathlib

/-!
Shallow embedding of `src/kube.rs` of the `click` repository: the `Kluster`
Kubernetes API client (trust-store construction, authenticated GET dispatch,
and the typed / untyped JSON deserialization contract), together with proofs
of the specification claims about it.

External collaborators (the parser of the `url` crate, `add_pem_file`
of `rustls`, the `hyper` transport, and the derived `serde` deserializers)
are embedded at the granularity the client observes them: a URL either
parses or not, a PEM block either yields a certificate or not, the network
either answers a request or fails, a response body either is a JSON tree or
not.  Observable effects (opening the certificate file, constructing a
connector, emitting a warning, issuing a request) are returned as an
explicit event trace.  A Rust panic (a failed `.unwrap()`) is the `.error`
case of an outer `Except RustPanic`.
-/

/-- A JSON value, the embedding of `serde_json::Value`.  Numbers are kept as
integers; no claim depends on float payloads. -/
inductive JVal where
  | null
  | bool (b : Bool)
  | num (n : Int)
  | str (s : String)
  | arr (xs : List JVal)
  | obj (fields : List (String × JVal))

/-- Field lookup in a JSON object, first binding wins. -/
def jLookup (key : String) : List (String × JVal) → Option JVal
  | [] => none
  | (k, v) :: rest => if k = key then some v else jLookup key rest

/-- A `chrono::DateTime<UTC>` value.  Kept as its RFC3339 string form:
no claim depends on the internal structure of a parsed timestamp. -/
abbrev DateTime := String

/-- Embedding of `struct Metadata` (kube.rs lines 42-47).  The Rust field
`namespace` is a Lean keyword, so it is spelled `namespace_` here. -/
structure Metadata where
  name : String
  namespace_ : Option String
  creation_timestamp : Option DateTime

/-- Embedding of `struct PodStatus` (kube.rs lines 52-54). -/
structure PodStatus where
  phase : String

/-- Embedding of `struct Pod` (kube.rs lines 58-61). -/
structure Pod where
  metadata : Metadata
  status : PodStatus

/-- Embedding of `struct NodeSpec` (kube.rs lines 99-101). -/
structure NodeSpec where
  unschedulable : Option Bool

/-- A serde deserializer for shape `α`: maps a parsed JSON tree to a value
or a deserialization-error message. -/
abbrev JDeserializer (α : Type) := JVal → Except String α

/-- serde field access for a required `String` field. -/
def parseReqString (o : Option JVal) (fieldName : String) : Except String String :=
  match o with
  | some (.str s) => .ok s
  | some _ => .error ("invalid type for field " ++ fieldName)
  | none => .error ("missing field " ++ fieldName)

/-- serde field access for an `Option<String>` field: absent or `null`
deserializes to `none`, not an error. -/
def parseOptString (o : Option JVal) (fieldName : String) : Except String (Option String) :=
  match o with
  | none => .ok none
  | some .null => .ok none
  | some (.str s) => .ok (some s)
  | some _ => .error ("invalid type for field " ++ fieldName)

/-- serde field access for an `Option<DateTime<UTC>>` field. -/
def parseOptDateTime (o : Option JVal) (fieldName : String) : Except String (Option DateTime) :=
  match o with
  | none => .ok none
  | some .null => .ok none
  | some (.str s) => .ok (some s)
  | some _ => .error ("invalid type for field " ++ fieldName)

/-- serde field access for an `Option<bool>` field. -/
def parseOptBool (o : Option JVal) (fieldName : String) : Except String (Option Bool) :=
  match o with
  | none => .ok none
  | some .null => .ok none
  | some (.bool b) => .ok (some b)
  | some _ => .error ("invalid type for field " ++ fieldName)

/-- The serde-derived `Deserialize` impl for `Metadata`: a JSON object,
required `name`, optional `namespace` and `creationTimestamp` (renamed),
unknown fields ignored (the derive has no `deny_unknown_fields`). -/
def Metadata.deserialize : JDeserializer Metadata := fun v =>
  match v with
  | .obj fields =>
    match parseReqString (jLookup "name" fields) "name" with
    | .error e => .error e
    | .ok n =>
      match parseOptString (jLookup "namespace" fields) "namespace" with
      | .error e => .error e
      | .ok ns =>
        match parseOptDateTime (jLookup "creationTimestamp" fields) "creationTimestamp" with
        | .error e => .error e
        | .ok ct => .ok { name := n, namespace_ := ns, creation_timestamp := ct }
  | _ => .error "invalid type: expected struct Metadata"

/-- The serde-derived `Deserialize` impl for `PodStatus`. -/
def PodStatus.deserialize : JDeserializer PodStatus := fun v =>
  match v with
  | .obj fields =>
    match parseReqString (jLookup "phase" fields) "phase" with
    | .error e => .error e
    | .ok p => .ok { phase := p }
  | _ => .error "invalid type: expected struct PodStatus"

/-- The serde-derived `Deserialize` impl for `Pod`: both `metadata` and
`status` are required; there is no default for a missing field. -/
def Pod.deserialize : JDeserializer Pod := fun v =>
  match v with
  | .obj fields =>
    match jLookup "metadata" fields with
    | none => .error "missing field metadata"
    | some mv =>
      match Metadata.deserialize mv with
      | .error e => .error e
      | .ok m =>
        match jLookup "status" fields with
        | none => .error "missing field status"
        | some sv =>
          match PodStatus.deserialize sv with
          | .error e => .error e
          | .ok s => .ok { metadata := m, status := s }
  | _ => .error "invalid type: expected struct Pod"

/-- The serde-derived `Deserialize` impl for `NodeSpec`: its only field is
optional, so any JSON object deserializes successfully. -/
def NodeSpec.deserialize : JDeserializer NodeSpec := fun v =>
  match v with
  | .obj fields =>
    match parseOptBool (jLookup "unschedulable" fields) "unschedulable" with
    | .error e => .error e
    | .ok u => .ok { unschedulable := u }
  | _ => .error "invalid type: expected struct NodeSpec"

/-- The `Deserialize` impl for `serde_json::Value`: the identity on the
parsed JSON tree. -/
def Value.deserialize : JDeserializer JVal := fun v => .ok v

/-- A parsed absolute URL, the embedding of `hyper::Url` (the `url` crate):
a scheme plus everything after the `://` separator.  Only the aspects the
client observes are modelled: parsing either succeeds or fails, and a
parsed URL can be handed to the transport. -/
structure Url where
  scheme : String
  rest : String
deriving DecidableEq, Repr

/-- Split a character list at the first `://`, returning the part before
and the part after. -/
def splitSchemeSep : List Char → Option (List Char × List Char)
  | [] => none
  | ':' :: '/' :: '/' :: rest => some ([], rest)
  | c :: cs =>
    match splitSchemeSep cs with
    | some (pre, rest) => some (c :: pre, rest)
    | none => none

/-- Split a character list at the first `:`, returning the part before and
the part after. -/
def splitColon : List Char → Option (List Char × List Char)
  | [] => none
  | ':' :: rest => some ([], rest)
  | c :: cs =>
    match splitColon cs with
    | some (pre, rest) => some (c :: pre, rest)
    | none => none

/-- Does the string start with `scheme:` for a plausible scheme?  Such a
string is treated as absolute when joined against a base. -/
def schemeLike (s : String) : Bool :=
  match splitColon s.data with
  | some (pre, _) => !pre.isEmpty && pre.all Char.isAlpha
  | none => false

/-- Embedding of `Url::parse`: an absolute URL needs `scheme://` with a
nonempty alphabetic scheme and a nonempty remainder; anything else is a
parse error. -/
def Url.parse (s : String) : Except String Url :=
  match splitSchemeSep s.data with
  | some (sch, rest) =>
    if !sch.isEmpty && sch.all Char.isAlpha && !rest.isEmpty then
      .ok { scheme := { data := sch }, rest := { data := rest } }
    else
      .error "relative URL without a base"
  | none => .error "relative URL without a base"

/-- Embedding of `Url::join`: an absolute-looking path is re-parsed from
scratch (and may fail); a relative path is resolved against the base and
always succeeds. -/
def Url.join (base : Url) (path : String) : Except String Url :=
  if schemeLike path then
    Url.parse path
  else
    .ok { scheme := base.scheme, rest := base.rest ++ "/" ++ path }

/-- A certificate in the root store. -/
abbrev Cert := Nat

/-- One PEM block of a CA bundle file: either it parses to a certificate or
it is corrupt. -/
inductive PemBlock where
  | valid (cert : Cert)
  | corrupt
deriving DecidableEq, Repr

/-- The certificate a PEM block yields, if it parses. -/
def PemBlock.certOf : PemBlock → Option Cert
  | .valid c => some c
  | .corrupt => none

/-- Embedding of rustls `RootCertStore::add_pem_file` on a readable file:
returns the certificates added together with the `(added, failed)` counts;
corrupt blocks are counted, not fatal. -/
def add_pem_file (blocks : List PemBlock) : List Cert × Nat × Nat :=
  let certs := blocks.filterMap PemBlock.certOf
  (certs, certs.length, blocks.length - certs.length)

/-- The rustls client configuration: only the root store is observable to
this client. -/
structure TlsConfig where
  root_store : List Cert
deriving DecidableEq, Repr

/-- A reference-counted cell, the embedding of `std::sync::Arc`: the strong
count decides whether `Arc::get_mut` grants mutable access. -/
structure ArcCell (α : Type) where
  strong : Nat
  value : α
deriving DecidableEq, Repr

/-- `Arc::new`: a freshly created Arc is uniquely owned. -/
def ArcCell.new (a : α) : ArcCell α := { strong := 1, value := a }

/-- `Arc::get_mut`: mutable access is granted exactly when the Arc is
uniquely owned. -/
def ArcCell.get_mut (c : ArcCell α) : Option α :=
  if c.strong = 1 then some c.value else none

/-- Embedding of `hyper_rustls::TlsClient`: its `cfg` is an
`Arc<rustls::ClientConfig>`. -/
structure TlsClient where
  cfg : ArcCell TlsConfig
deriving DecidableEq, Repr

/-- `TlsClient::new()` wraps a fresh config in a fresh (hence uniquely
owned) Arc, and shares it with nobody before returning. -/
def TlsClient.new : TlsClient := { cfg := ArcCell.new { root_store := [] } }

/-- A Rust panic: which `.unwrap()` of `make_tlsclient` fired. -/
inductive RustPanic where
  | arcGetMutNone
  | fileOpenFailed (path : String)
deriving DecidableEq, Repr

/-- The observable effects of a client operation, in order of occurrence:
opening the CA certificate file, constructing an HTTPS connector, printing
a certificate warning, issuing an HTTP request (with its URL, the bearer
token of its `Authorization` header, and its read timeout). -/
inductive Event where
  | fileOpen (path : String)
  | connectorNew
  | warn (msg : String)
  | request (url : Url) (bearer : String) (timeout : Option Nat)
deriving DecidableEq, Repr

/-- Does the event read a certificate file from disk? -/
def Event.readsCertFile : Event → Bool
  | .fileOpen _ => true
  | _ => false

/-- Does the event construct a new connector? -/
def Event.buildsConnector : Event → Bool
  | .connectorNew => true
  | _ => false

/-- The raw response stream handed back by the transport, abstracted to
what its body parses to: `some` JSON tree, or `none` when the body is not
valid JSON. -/
abbrev RawResponse := Option JVal

/-- The world outside the client: the filesystem (a path either opens to a
list of PEM blocks or fails to open) and the network (a request either
yields a response or a transport failure, as a function of URL, bearer
token and read timeout). -/
structure World where
  fs : String → Option (List PemBlock)
  net : Url → String → Option Nat → Except String RawResponse

/-- Modelled from the spec: the error taxonomy of `KubeError`.  The
file `error.rs` of the repository (defining `KubeError` and its `From`
conversions) is not under `src/`; the constructors follow the section 7
kinds of the spec.
`certificateLoadError` is listed by the spec for an unopenable CA file; no
code path of `kube.rs` produces it (the file-open failure panics). -/
inductive KubeError where
  | urlParseError (cause : String)
  | urlJoinError (cause : String)
  | certificateLoadError (path : String)
  | transportError (cause : String)
  | deserializationError (cause : String)
deriving DecidableEq, Repr

/-- Embedding of `serde_json::from_reader` applied to a response stream:
fails when the body is not valid JSON, otherwise runs the deserializer of
the shape on the parsed tree. -/
def from_reader (d : JDeserializer α) (resp : RawResponse) : Except String α :=
  match resp with
  | none => .error "expected value"
  | some v => d v

/-- Embedding of `struct Kluster` (kube.rs lines 115-121). -/
structure Kluster where
  name : String
  endpoint : Url
  token : String
  cert_path : String
  client : TlsClient

/-- Embedding of `Kluster::make_tlsclient` (kube.rs lines 127-140), with
its source order preserved: `TlsClient::new()`, then
`Arc::get_mut(&mut tlsclient.cfg).unwrap()`, then
`File::open(cert_path).unwrap()`, then `add_pem_file(..).unwrap()` and a
printed warning when some certificates failed to add.  Result: a panic, or
the TlsClient together with the trace of effects. -/
def Kluster.make_tlsclient (fs : String → Option (List PemBlock)) (cert_path : String) :
    Except RustPanic (TlsClient × List Event) :=
  let tlsclient := TlsClient.new
  match tlsclient.cfg.get_mut with
  | none => .error .arcGetMutNone
  | some cfg =>
    match fs cert_path with
    | none => .error (.fileOpenFailed cert_path)
    | some blocks =>
      let added := add_pem_file blocks
      let cfg2 : TlsConfig := { cfg with root_store := cfg.root_store ++ added.1 }
      -- the warning text of kube.rs line 136, with its apostrophe elided
      let warns : List Event :=
        if added.2.2 > 0 then
          [.warn ("[WARNING] Couldnt add some certs from " ++ cert_path)]
        else []
      .ok ({ cfg := { strong := 1, value := cfg2 } }, .fileOpen cert_path :: warns)

/-- Embedding of `Kluster::new` (kube.rs lines 142-152).  The struct
fields of the struct literal are evaluated in source order, so `try!(Url::parse(server))`
returns a `KubeError` before `make_tlsclient` ever runs; a successful parse
is followed by `Client::with_connector(HttpsConnector::new(make_tlsclient(..)))`,
whose panics propagate. -/
def Kluster.new (w : World) (name cert_path server token : String) :
    Except RustPanic (Except KubeError Kluster × List Event) :=
  match Url.parse server with
  | .error e => .ok (.error (.urlParseError e), [])
  | .ok url =>
    match Kluster.make_tlsclient w.fs cert_path with
    | .error p => .error p
    | .ok (tc, evs) =>
      .ok (.ok { name := name, endpoint := url, token := token,
                 cert_path := cert_path, client := tc },
           evs ++ [.connectorNew])

/-- Embedding of `Kluster::send_req` (kube.rs lines 154-163): join the path
against the endpoint (failure aborts the call before any request), then
issue a GET with the `Authorization: Bearer <token>` header on the shared
client.  No unwrap occurs, so no panic is possible. -/
def Kluster.send_req (k : Kluster) (w : World) (path : String) :
    Except KubeError RawResponse × List Event :=
  match k.endpoint.join path with
  | .error e => (.error (.urlJoinError e), [])
  | .ok url =>
    match w.net url k.token none with
    | .error he => (.error (.transportError he), [.request url k.token none])
    | .ok resp => (.ok resp, [.request url k.token none])

/-- Embedding of `Kluster::get` (kube.rs lines 165-170): `send_req`, then
`serde_json::from_reader` into shape `α`, deserialization failures mapped
into `KubeError`. -/
def Kluster.get (k : Kluster) (α : Type) (d : JDeserializer α) (w : World) (path : String) :
    Except KubeError α × List Event :=
  match k.send_req w path with
  | (.error e, evs) => (.error e, evs)
  | (.ok resp, evs) =>
    match from_reader d resp with
    | .error sje => (.error (.deserializationError sje), evs)
    | .ok t => (.ok t, evs)

/-- Embedding of `Kluster::get_read` (kube.rs lines 178-200): with a
timeout present, join the URL, build a fresh `TlsClient` from the stored
`cert_path` (panics propagate), wrap it in a new `HttpsConnector`, set the
bearer header, set the read timeout, and send; with no timeout, exactly
`send_req`. -/
def Kluster.get_read (k : Kluster) (w : World) (path : String) (timeout : Option Nat) :
    Except RustPanic (Except KubeError RawResponse × List Event) :=
  if timeout.isSome then
    match k.endpoint.join path with
    | .error e => .ok (.error (.urlJoinError e), [])
    | .ok url =>
      match Kluster.make_tlsclient w.fs k.cert_path with
      | .error p => .error p
      | .ok (_tc, evs) =>
        match w.net url k.token timeout with
        | .error he =>
          .ok (.error (.transportError he), evs ++ [.connectorNew, .request url k.token timeout])
        | .ok resp =>
          .ok (.ok resp, evs ++ [.connectorNew, .request url k.token timeout])
  else
    .ok (k.send_req w path)

/-- Embedding of `Kluster::get_value` (kube.rs lines 202-205): the body of
`get` written out at `serde_json::Value`, exactly as the source duplicates
it. -/
def Kluster.get_value (k : Kluster) (w : World) (path : String) :
    Except KubeError JVal × List Event :=
  match k.send_req w path with
  | (.error e, evs) => (.error e, evs)
  | (.ok resp, evs) =>
    match from_reader Value.deserialize resp with
    | .error sje => (.error (.deserializationError sje), evs)
    | .ok t => (.ok t, evs)

/-! ### Helper lemmas -/

/-- `make_tlsclient` on an openable certificate file: the Arc grants
mutable access, the file is read once, every successfully parsed
certificate lands in the root store, and a warning is printed exactly when
some block failed to parse. -/
theorem make_tlsclient_of_fs_some (fs : String → Option (List PemBlock)) (p : String)
    (blocks : List PemBlock) (hf : fs p = some blocks) :
    Kluster.make_tlsclient fs p =
      .ok ({ cfg := { strong := 1,
                      value := { root_store := blocks.filterMap PemBlock.certOf } } },
           .fileOpen p ::
             (if blocks.length - (blocks.filterMap PemBlock.certOf).length > 0
              then [.warn ("[WARNING] Couldnt add some certs from " ++ p)]
              else [])) := by
  unfold Kluster.make_tlsclient
  simp [TlsClient.new, ArcCell.new, ArcCell.get_mut, hf, add_pem_file]

/-- A corrupt block makes the count of parsed certificates strictly smaller
than the block count. -/
theorem length_filterMap_certOf_lt (blocks : List PemBlock)
    (h : PemBlock.corrupt ∈ blocks) :
    (blocks.filterMap PemBlock.certOf).length < blocks.length := by
  induction blocks with
  | nil => cases h
  | cons b bs ih =>
    cases b with
    | corrupt =>
      simp only [List.filterMap_cons, PemBlock.certOf, List.length_cons]
      exact Nat.lt_succ_of_le (List.length_filterMap_le _ _)
    | valid c =>
      have hb : PemBlock.corrupt ∈ bs := by
        cases h with
        | tail _ h => exact h
      simp only [List.filterMap_cons, PemBlock.certOf, List.length_cons]
      exact Nat.succ_lt_succ (ih hb)

/-- Appending a binding for a fresh key does not change a JSON object
lookup for a different key. -/
theorem jLookup_append_fresh (key k : String) (v : JVal) (l : List (String × JVal))
    (hk : k ≠ key) :
    jLookup key (l ++ [(k, v)]) = jLookup key l := by
  induction l with
  | nil => simp [jLookup, hk]
  | cons p rest ih =>
    obtain ⟨k0, v0⟩ := p
    by_cases h0 : k0 = key <;> simp [jLookup, h0, ih]

/-- `Metadata` deserialization only inspects its three declared fields, so
a binding for any other key appended to the object is ignored. -/
theorem metadata_deserialize_append_fresh (fields : List (String × JVal)) (k : String)
    (v : JVal) (h1 : k ≠ "name") (h2 : k ≠ "namespace") (h3 : k ≠ "creationTimestamp") :
    Metadata.deserialize (.obj (fields ++ [(k, v)])) = Metadata.deserialize (.obj fields) := by
  simp only [Metadata.deserialize]
  rw [jLookup_append_fresh _ _ _ _ h1, jLookup_append_fresh _ _ _ _ h2,
      jLookup_append_fresh _ _ _ _ h3]

/-! ### The claims -/

/-- C10: the `Arc::get_mut(&mut tlsclient.cfg).unwrap()` in
`make_tlsclient` can never fire: the `TlsClient` was created on the
previous line and shared with nobody, so its config Arc is uniquely owned
(strong count 1) at that program point, and the unwrap-on-`None` panic is
unreachable for every filesystem and certificate path. -/
theorem make_tlsclient_arc_get_mut_never_panics
    (fs : String → Option (List PemBlock)) (p : String) :
    TlsClient.new.cfg.strong = 1
    ∧ TlsClient.new.cfg.get_mut = some { root_store := [] }
    ∧ Kluster.make_tlsclient fs p ≠ .error .arcGetMutNone := by
  refine ⟨rfl, rfl, ?_⟩
  unfold Kluster.make_tlsclient
  cases hf : fs p <;> simp [TlsClient.new, ArcCell.new, ArcCell.get_mut, hf]

/-- C2: `get_value` returns exactly the result of `get` instantiated at the
untyped JSON value shape (`get::<Value>`), for every client, world and
path: same JSON tree on success, same error on failure. -/
theorem get_value_eq_get_at_value (w : World) (k : Kluster) (path : String) :
    k.get_value w path = k.get JVal Value.deserialize w path := by
  unfold Kluster.get Kluster.get_value
  rcases k.send_req w path with ⟨e | resp, evs⟩
  · rfl
  · rcases resp with _ | v <;> rfl

/-- C3: `get_read` with no timeout is observationally the primitive
`send_req`: it returns exactly the result of `send_req` (inside `.ok`: no panic
is possible), and the trace of the call contains no certificate-file read
and no connector construction. -/
theorem get_read_none_is_send_req (w : World) (k : Kluster) (path : String) :
    k.get_read w path none = .ok (k.send_req w path)
    ∧ ((k.send_req w path).2.all
        fun e => !e.readsCertFile && !e.buildsConnector) = true := by
  refine ⟨rfl, ?_⟩
  unfold Kluster.send_req
  cases hj : k.endpoint.join path with
  | error e => simp
  | ok url =>
    cases hn : w.net url k.token none <;>
      simp [hn, Event.readsCertFile, Event.buildsConnector]

/-- A world whose filesystem has no openable file anywhere; the network is
never reached in the scenarios that use it. -/
def worldNoFiles : World :=
  { fs := fun _ => none, net := fun _ _ _ => .error "connection refused" }

/-- C5: a server string that does not parse as an absolute URL makes
`Kluster::new` return a `UrlParseError` for every name, certificate path
and token; no client is created, and nothing else happens first (empty
trace: in particular the certificate file is never opened and no transport
is built). -/
theorem new_bad_server_url_parse_error (w : World) (name cert_path server token : String)
    (e : String) (h : Url.parse server = .error e) :
    Kluster.new w name cert_path server token = .ok (.error (.urlParseError e), []) := by
  unfold Kluster.new
  rw [h]

/-- Witness for C5: `"not a url"` has no `scheme://`, so construction fails
with the parse error and succeeds at creating nothing. -/
theorem new_bad_server_url_parse_error_witness :
    Url.parse "not a url" = .error "relative URL without a base"
    ∧ Kluster.new worldNoFiles "prod" "ca.pem" "not a url" "tok"
        = .ok (.error (.urlParseError "relative URL without a base"), []) :=
  ⟨rfl, new_bad_server_url_parse_error worldNoFiles "prod" "ca.pem" "not a url" "tok"
          "relative URL without a base" rfl⟩

/-- C6: a path that cannot be resolved against the endpoint makes
`send_req` — and every operation layered on it: `get` at any shape,
`get_value`, and the timeout branch of `get_read` — return a
`UrlJoinError` with an empty trace: no request is issued, no certificate
file is read, no connector is built.  All operations are pure functions of
the unchanged client value, so the client remains usable afterwards. -/
theorem join_failure_url_join_error (w : World) (k : Kluster) (path : String)
    (α : Type) (d : JDeserializer α) (t : Nat) (e : String)
    (h : k.endpoint.join path = .error e) :
    k.send_req w path = (.error (.urlJoinError e), [])
    ∧ k.get α d w path = (.error (.urlJoinError e), [])
    ∧ k.get_value w path = (.error (.urlJoinError e), [])
    ∧ k.get_read w path (some t) = .ok (.error (.urlJoinError e), []) := by
  have hs : k.send_req w path = (.error (.urlJoinError e), []) := by
    unfold Kluster.send_req
    rw [h]
  refine ⟨hs, ?_, ?_, ?_⟩
  · unfold Kluster.get
    rw [hs]
  · unfold Kluster.get_value
    rw [hs]
  · unfold Kluster.get_read
    simp [h]

/-- A client value as `Kluster::new` would produce it for
`https://example.com` with an empty CA bundle. -/
def klusterEx : Kluster :=
  { name := "prod", endpoint := { scheme := "https", rest := "example.com" },
    token := "tok", cert_path := "ca.pem", client := TlsClient.new }

/-- Witness for C6: `"h:bad"` looks absolute but does not re-parse, so the
join fails and all four operations return the join error with no effects. -/
theorem join_failure_url_join_error_witness :
    klusterEx.endpoint.join "h:bad" = .error "relative URL without a base"
    ∧ klusterEx.send_req worldNoFiles "h:bad"
        = (.error (.urlJoinError "relative URL without a base"), [])
    ∧ klusterEx.get Pod Pod.deserialize worldNoFiles "h:bad"
        = (.error (.urlJoinError "relative URL without a base"), [])
    ∧ klusterEx.get_value worldNoFiles "h:bad"
        = (.error (.urlJoinError "relative URL without a base"), [])
    ∧ klusterEx.get_read worldNoFiles "h:bad" (some 5)
        = .ok (.error (.urlJoinError "relative URL without a base"), []) :=
  ⟨rfl, join_failure_url_join_error worldNoFiles klusterEx "h:bad" Pod Pod.deserialize 5
          "relative URL without a base" rfl⟩

/-- C1, counterexample: the claim says an unopenable CA file makes client
construction *return* a `CertificateLoadError`.  It does not: with a valid
server URL and a filesystem on which `ca.pem` cannot be opened,
`Kluster::new` hits the `File::open(cert_path).unwrap()` panic inside
`make_tlsclient` — the panic outcome, not an `Ok`-wrapped returned error
of any kind. -/
theorem new_unreadable_cert_counterexample :
    Kluster.new worldNoFiles "prod" "ca.pem" "https://example.com" "tok"
      = .error (RustPanic.fileOpenFailed "ca.pem") := rfl

/-- C1, amended: for every certificate path naming a file that cannot be
opened (given any name, token, and a server that parses as an absolute
URL), constructing the client panics at the `File::open` unwrap inside
`make_tlsclient` — construction neither completes nor returns an error
value, and no transport is created. -/
theorem new_unreadable_cert_panics (w : World) (name cert_path server token : String)
    (u : Url) (hu : Url.parse server = .ok u) (hf : w.fs cert_path = none) :
    Kluster.new w name cert_path server token = .error (.fileOpenFailed cert_path) := by
  unfold Kluster.new
  rw [hu]
  unfold Kluster.make_tlsclient
  simp [TlsClient.new, ArcCell.new, ArcCell.get_mut, hf]

/-- Witness for the amended C1. -/
theorem new_unreadable_cert_panics_witness :
    Url.parse "https://example.com" = .ok { scheme := "https", rest := "example.com" }
    ∧ worldNoFiles.fs "missing.pem" = none
    ∧ Kluster.new worldNoFiles "dev" "missing.pem" "https://example.com" "tok2"
        = .error (.fileOpenFailed "missing.pem") :=
  ⟨rfl, rfl,
   new_unreadable_cert_panics worldNoFiles "dev" "missing.pem" "https://example.com" "tok2"
     { scheme := "https", rest := "example.com" } rfl rfl⟩

/-- C9: a CA bundle with at least one block that parses and at least one
that does not: `make_tlsclient` does not fail — it returns a TLS client
whose root store holds exactly the certificates that parsed, and its trace
holds exactly one warning, which names the offending file. -/
theorem make_tlsclient_mixed_bundle_warns (fs : String → Option (List PemBlock))
    (p : String) (blocks : List PemBlock) (hf : fs p = some blocks)
    (_hvalid : ∃ c, PemBlock.valid c ∈ blocks) (hcorrupt : PemBlock.corrupt ∈ blocks) :
    Kluster.make_tlsclient fs p =
      .ok ({ cfg := { strong := 1,
                      value := { root_store := blocks.filterMap PemBlock.certOf } } },
           [.fileOpen p, .warn ("[WARNING] Couldnt add some certs from " ++ p)]) := by
  rw [make_tlsclient_of_fs_some fs p blocks hf]
  have hlt := length_filterMap_certOf_lt blocks hcorrupt
  rw [if_pos (Nat.sub_pos_of_lt hlt)]

/-- Witness for C9: one valid and one corrupt block — success, the valid
certificate in the store, exactly one warning naming the file. -/
theorem make_tlsclient_mixed_bundle_warns_witness :
    Kluster.make_tlsclient (fun _ => some [.valid 7, .corrupt]) "bundle.pem" =
      .ok ({ cfg := { strong := 1, value := { root_store := [7] } } },
           [.fileOpen "bundle.pem",
            .warn ("[WARNING] Couldnt add some certs from " ++ "bundle.pem")]) :=
  make_tlsclient_mixed_bundle_warns (fun _ => some [.valid 7, .corrupt]) "bundle.pem"
    [.valid 7, .corrupt] rfl ⟨7, by decide⟩ (by decide)

/-- C4: `get_read` with a timeout present does not touch the shared
transport: it re-invokes the trust-store builder on the stored
`cert_path` (the certificate file is read again), builds a fresh connector,
and issues the request with the bearer token attached and the given read
timeout set; the result is the response of the network, or its failure as a
`TransportError`. -/
theorem get_read_timeout_fresh_connector (w : World) (k : Kluster) (path : String)
    (t : Nat) (url : Url) (blocks : List PemBlock)
    (hj : k.endpoint.join path = .ok url) (hf : w.fs k.cert_path = some blocks) :
    ∃ res evs, k.get_read w path (some t) = .ok (res, evs)
      ∧ Event.fileOpen k.cert_path ∈ evs
      ∧ Event.connectorNew ∈ evs
      ∧ Event.request url k.token (some t) ∈ evs
      ∧ res = (match w.net url k.token (some t) with
               | .error he => .error (KubeError.transportError he)
               | .ok resp => .ok resp) := by
  unfold Kluster.get_read
  rw [make_tlsclient_of_fs_some w.fs k.cert_path blocks hf]
  simp only [Option.isSome_some, if_true, hj]
  cases hn : w.net url k.token (some t) with
  | error he =>
    simp only [hn]
    refine ⟨_, _, rfl, ?_, ?_, ?_, rfl⟩ <;> simp
  | ok resp =>
    simp only [hn]
    refine ⟨_, _, rfl, ?_, ?_, ?_, rfl⟩ <;> simp

/-- A world with a one-certificate CA bundle everywhere and a network that
answers every request with the JSON body `null`. -/
def worldOkNull : World :=
  { fs := fun _ => some [.valid 7], net := fun _ _ _ => .ok (some .null) }

/-- Witness for C4. -/
theorem get_read_timeout_fresh_connector_witness :
    ∃ res evs, klusterEx.get_read worldOkNull "api/v1/pods" (some 5) = .ok (res, evs)
      ∧ Event.fileOpen "ca.pem" ∈ evs
      ∧ Event.connectorNew ∈ evs
      ∧ Event.request { scheme := "https", rest := "example.com/api/v1/pods" } "tok"
          (some 5) ∈ evs
      ∧ res = .ok (some .null) :=
  get_read_timeout_fresh_connector worldOkNull klusterEx "api/v1/pods" 5
    { scheme := "https", rest := "example.com/api/v1/pods" } [.valid 7] rfl rfl

/-- C7: the derived deserializers ignore unknown fields and read absent
optional fields as `none`.  For any JSON object whose `name` is a string
and which lacks `namespace` and `creationTimestamp` — whatever other
fields it carries — `Metadata` deserializes successfully with both options
absent; any JSON object lacking `unschedulable` deserializes as a
`NodeSpec` with the option absent; and appending a binding for an unknown
key to a `Metadata` object never changes the result. -/
theorem deserialize_optional_and_unknown_fields
    (fields fields2 fields3 : List (String × JVal)) (n k : String) (v : JVal)
    (hn : jLookup "name" fields = some (.str n))
    (hns : jLookup "namespace" fields = none)
    (hct : jLookup "creationTimestamp" fields = none)
    (hu : jLookup "unschedulable" fields2 = none)
    (h1 : k ≠ "name") (h2 : k ≠ "namespace") (h3 : k ≠ "creationTimestamp") :
    Metadata.deserialize (.obj fields)
        = .ok { name := n, namespace_ := none, creation_timestamp := none }
    ∧ NodeSpec.deserialize (.obj fields2) = .ok { unschedulable := none }
    ∧ Metadata.deserialize (.obj (fields3 ++ [(k, v)]))
        = Metadata.deserialize (.obj fields3) := by
  refine ⟨?_, ?_, metadata_deserialize_append_fresh fields3 k v h1 h2 h3⟩
  · simp only [Metadata.deserialize, hn, hns, hct, parseReqString, parseOptString,
               parseOptDateTime]
  · simp only [NodeSpec.deserialize, hu, parseOptBool]

/-- Witness for C7: a `Metadata` object with an unknown extra field and no
optional fields, a `NodeSpec` object with only foreign fields, and an
append of an unknown binding. -/
theorem deserialize_optional_and_unknown_fields_witness :
    Metadata.deserialize (.obj [("name", .str "p"), ("bogus", .num 3)])
        = .ok { name := "p", namespace_ := none, creation_timestamp := none }
    ∧ NodeSpec.deserialize (.obj [("zz", .null)]) = .ok { unschedulable := none }
    ∧ Metadata.deserialize (.obj ([("name", .str "q")] ++ [("extra", .bool true)]))
        = Metadata.deserialize (.obj [("name", .str "q")]) :=
  deserialize_optional_and_unknown_fields
    [("name", .str "p"), ("bogus", .num 3)] [("zz", .null)] [("name", .str "q")]
    "p" "extra" (.bool true) rfl rfl rfl rfl
    (by decide) (by decide) (by decide)

/-- C8: a response body that is valid JSON but lacks the required `status`
field of `Pod` makes `get::<Pod>` return a `DeserializationError` carrying
the underlying serde message — never an `Ok` with a default-filled field. -/
theorem get_pod_missing_status_deserialization_error (w : World) (k : Kluster)
    (path : String) (url : Url) (fields : List (String × JVal))
    (hj : k.endpoint.join path = .ok url)
    (hn : w.net url k.token none = .ok (some (.obj fields)))
    (hs : jLookup "status" fields = none) :
    ∃ cause, k.get Pod Pod.deserialize w path
      = (.error (.deserializationError cause), [.request url k.token none]) := by
  have hsr : k.send_req w path = (.ok (some (.obj fields)), [.request url k.token none]) := by
    unfold Kluster.send_req
    simp only [hj, hn]
  cases hm : jLookup "metadata" fields with
  | none =>
    refine ⟨"missing field metadata", ?_⟩
    unfold Kluster.get
    rw [hsr]
    simp only [from_reader, Pod.deserialize, hm]
  | some mv =>
    cases hmd : Metadata.deserialize mv with
    | error e =>
      refine ⟨e, ?_⟩
      unfold Kluster.get
      rw [hsr]
      simp only [from_reader, Pod.deserialize, hm, hmd]
    | ok m =>
      refine ⟨"missing field status", ?_⟩
      unfold Kluster.get
      rw [hsr]
      simp only [from_reader, Pod.deserialize, hm, hmd, hs]

/-- A world answering every request with a Pod JSON object that has
`metadata` but no `status`. -/
def worldPodNoStatus : World :=
  { fs := fun _ => some [.valid 7],
    net := fun _ _ _ => .ok (some (.obj [("metadata", .obj [("name", .str "p")])])) }

/-- Witness for C8. -/
theorem get_pod_missing_status_deserialization_error_witness :
    ∃ cause, klusterEx.get Pod Pod.deserialize worldPodNoStatus "api/v1/pods"
      = (.error (.deserializationError cause),
         [.request { scheme := "https", rest := "example.com/api/v1/pods" } "tok" none]) :=
  get_pod_missing_status_deserialization_error worldPodNoStatus klusterEx "api/v1/pods"
    { scheme := "https", rest := "example.com/api/v1/pods" }
    [("metadata", .obj [("name", .str "p")])] rfl rfl rfl
